import Mathlib

/-!
Verification development for the HeliosOS Application Lifecycle Orchestrator
(`app/application_manager.py`) and Workflow Execution Engine
(`app/workflow_engine.py`).

The Python code is shallowly embedded: the two managers' mutable dictionaries
become explicit state values (association lists keyed by strings), the external
container runtime and the step collaborators become oracle structures of
functions, `datetime.now()` becomes an explicit `now : Nat` tick, and Python
exceptions become `Except String`.  The async step loop of
`WorkflowEngine._execute_workflow_steps` is embedded as a small-step transition
function whose atomic segments are exactly the regions between the loop's
`await` points, so that interleavings with `cancel_execution` can be expressed.
-/

namespace Helios

/-! ## Association lists, modelling Python `dict` state -/

/-- `m[k]` lookup on a Python dict modelled as an association list. -/
def lookupKey {α : Type} : List (String × α) → String → Option α
  | [], _ => none
  | (k', v) :: rest, k => if k' = k then some v else lookupKey rest k

/-- `del m[k]` (removes every binding of `k`). -/
def eraseKey {α : Type} : List (String × α) → String → List (String × α)
  | [], _ => []
  | (k', v) :: rest, k =>
      if k' = k then eraseKey rest k else (k', v) :: eraseKey rest k

/-- `m[k] = v` assignment on a Python dict. -/
def insertKey {α : Type} (m : List (String × α)) (k : String) (v : α) :
    List (String × α) :=
  (k, v) :: eraseKey m k

/-- Number of bindings of key `k` present in the association list. -/
def countKey {α : Type} (m : List (String × α)) (k : String) : Nat :=
  (m.filter (fun p => p.1 = k)).length

/-! ## Application manager data model (`app/application_manager.py`) -/

/-- `ApplicationStatus` enum. -/
inductive ApplicationStatus where
  | stopped
  | starting
  | running
  | stopping
  | error
deriving DecidableEq, Repr

/-- `ApplicationStatus.value` strings. -/
def ApplicationStatus.value : ApplicationStatus → String
  | .stopped => "stopped"
  | .starting => "starting"
  | .running => "running"
  | .stopping => "stopping"
  | .error => "error"

/-- `ApplicationCategory` enum. -/
inductive ApplicationCategory where
  | business
  | student
  | programmer
  | general
deriving DecidableEq, Repr

/-- `ApplicationDefinition` dataclass.  The Python `dependencies` default of
`None` is modelled by the empty list (both are falsy in the guard
`if app_def.dependencies:`). -/
structure ApplicationDefinition where
  name : String
  display_name : String
  description : String
  category : ApplicationCategory
  container_image : String
  container_name : String
  ports : List (String × Nat)
  volumes : List (String × String)
  environment : List (String × String)
  command : Option (List String) := none
  dependencies : List String := []
  ai_controllable : Bool := true
  web_interface : Bool := false
  web_port : Option Nat := none
deriving DecidableEq, Repr

/-- `ApplicationInstance` dataclass. -/
structure ApplicationInstance where
  definition : ApplicationDefinition
  container_id : String
  status : ApplicationStatus
  pid : Option Nat := none
  started_at : Option Nat := none
  stopped_at : Option Nat := none
  error_message : Option String := none
deriving DecidableEq, Repr

/-- The result dictionaries returned by the manager's operations, with one
optional field per key that the Python code ever stores. -/
structure ActionResult where
  success : Bool
  message : Option String := none
  error : Option String := none
  container_id : Option String := none
  web_url : Option String := none
deriving DecidableEq, Repr

/-- The external container runtime collaborator: the outcome of the
`docker run -d ...` subprocess (`.ok` carries the stdout container id,
`.error` the stderr text) and of `docker stop <container_id>`. -/
structure Runtime where
  launch : ApplicationDefinition → Except String String
  stop : String → Except String Unit

/-- The `running_instances` registry. -/
abbrev Reg : Type := List (String × ApplicationInstance)

/-! ### The application catalog built by `_initialize_applications` -/

/-- The fixed `applications` catalog (`_initialize_applications`). -/
def heliosApplications : List (String × ApplicationDefinition) :=
  [ ("libreoffice",
     { name := "libreoffice", display_name := "LibreOffice Suite",
       description := "Complete office suite with Writer, Calc, and Impress",
       category := .business,
       container_image := "libreoffice/online:latest",
       container_name := "helios-libreoffice",
       ports := [("9980", 9980)], volumes := [("/tmp/libreoffice", "/tmp")],
       environment := [("domain", "localhost:9980")],
       web_interface := true, web_port := some 9980 }),
    ("odoo",
     { name := "odoo", display_name := "Odoo ERP",
       description := "Open source ERP and CRM system",
       category := .business,
       container_image := "odoo:16", container_name := "helios-odoo",
       ports := [("8069", 8069)], volumes := [("/var/lib/odoo", "/var/lib/odoo")],
       environment := [("POSTGRES_DB", "postgres"), ("POSTGRES_USER", "odoo"),
                       ("POSTGRES_PASSWORD", "odoo")],
       dependencies := ["postgresql"],
       web_interface := true, web_port := some 8069 }),
    ("rocketchat",
     { name := "rocketchat", display_name := "Rocket.Chat",
       description := "Open source team communication platform",
       category := .business,
       container_image := "rocket.chat:latest", container_name := "helios-rocketchat",
       ports := [("3000", 3000)], volumes := [("/app/uploads", "/app/uploads")],
       environment := [("ROOT_URL", "http://localhost:3000"),
                       ("MONGO_URL", "mongodb://mongo:27017/rocketchat")],
       dependencies := ["mongodb"],
       web_interface := true, web_port := some 3000 }),
    ("joplin",
     { name := "joplin", display_name := "Joplin Notes",
       description := "Open source note taking and to-do application",
       category := .student,
       container_image := "joplin/server:latest", container_name := "helios-joplin",
       ports := [("22300", 22300)], volumes := [("/var/lib/joplin", "/var/lib/joplin")],
       environment := [("APP_PORT", "22300"),
                       ("APP_BASE_URL", "http://localhost:22300")],
       web_interface := true, web_port := some 22300 }),
    ("zotero",
     { name := "zotero", display_name := "Zotero",
       description := "Research assistant for collecting and organizing sources",
       category := .student,
       container_image := "linuxserver/zotero:latest", container_name := "helios-zotero",
       ports := [("3000", 3000)], volumes := [("/config", "/config")],
       environment := [("PUID", "1000"), ("PGID", "1000")],
       web_interface := true, web_port := some 3000 }),
    ("vscode",
     { name := "vscode", display_name := "VS Code Server",
       description := "Visual Studio Code in the browser",
       category := .programmer,
       container_image := "codercom/code-server:latest", container_name := "helios-vscode",
       ports := [("8080", 8080)],
       volumes := [("/home/coder", "/home/coder"),
                   ("/var/run/docker.sock", "/var/run/docker.sock")],
       environment := [("PASSWORD", "helios123")],
       web_interface := true, web_port := some 8080 }),
    ("gitea",
     { name := "gitea", display_name := "Gitea",
       description := "Lightweight Git service",
       category := .programmer,
       container_image := "gitea/gitea:latest", container_name := "helios-gitea",
       ports := [("3000", 3000), ("22", 2222)],
       volumes := [("/data", "/data"), ("/etc/timezone", "/etc/timezone"),
                   ("/etc/localtime", "/etc/localtime")],
       environment := [("USER_UID", "1000"), ("USER_GID", "1000")],
       web_interface := true, web_port := some 3000 }),
    ("portainer",
     { name := "portainer", display_name := "Portainer",
       description := "Container management interface",
       category := .programmer,
       container_image := "portainer/portainer-ce:latest",
       container_name := "helios-portainer",
       ports := [("9000", 9000)],
       volumes := [("/var/run/docker.sock", "/var/run/docker.sock"),
                   ("/portainer_data", "/data")],
       environment := [],
       web_interface := true, web_port := some 9000 }),
    ("firefox",
     { name := "firefox", display_name := "Firefox Browser",
       description := "Open source web browser",
       category := .general,
       container_image := "linuxserver/firefox:latest", container_name := "helios-firefox",
       ports := [("3000", 3000)], volumes := [("/config", "/config")],
       environment := [("PUID", "1000"), ("PGID", "1000")],
       web_interface := true, web_port := some 3000 }),
    ("postgresql",
     { name := "postgresql", display_name := "PostgreSQL Database",
       description := "Open source relational database",
       category := .general,
       container_image := "postgres:15", container_name := "helios-postgresql",
       ports := [("5432", 5432)],
       volumes := [("/var/lib/postgresql/data", "/var/lib/postgresql/data")],
       environment := [("POSTGRES_DB", "postgres"), ("POSTGRES_USER", "postgres"),
                       ("POSTGRES_PASSWORD", "helios123")],
       ai_controllable := false }),
    ("mongodb",
     { name := "mongodb", display_name := "MongoDB Database",
       description := "Open source document database",
       category := .general,
       container_image := "mongo:6", container_name := "helios-mongodb",
       ports := [("27017", 27017)], volumes := [("/data/db", "/data/db")],
       environment := [],
       ai_controllable := false }) ]

/-! ### Orchestrator operations

`start_application` recurses into its dependencies; the Python recursion is
unbounded (no cycle detection), which the embedding accounts for with a `fuel`
argument: `fuel = 0` stands for the recursion not returning, and every theorem
supplies enough fuel for the catalog at hand. -/

/-- The out-of-fuel artifact of the embedding (never produced for adequate
fuel); deliberately an unsuccessful result. -/
def fuelExhausted : ActionResult :=
  { success := false, error := some "dependency recursion limit reached" }

/-- The `if app_name in self.running_instances: ... if instance.status ==
ApplicationStatus.RUNNING:` idempotency test of `start_application`. -/
def runningInstance (reg : Reg) (app_name : String) : Bool :=
  match lookupKey reg app_name with
  | some inst => inst.status = ApplicationStatus.running
  | none => false

/-- The `web_url` field computed on a successful launch:
`f"http://localhost:{app_def.web_port}" if app_def.web_interface else None`. -/
def webUrl (d : ApplicationDefinition) : Option String :=
  if d.web_interface then
    some ("http://localhost:" ++ (match d.web_port with
      | some p => toString p
      | none => "None"))
  else none

/-- The `for dep in app_def.dependencies:` loop of `start_application`, with
the recursive `self.start_application` call abstracted as `starter`: returns
the updated registry, or on the first failing dependency the offending name
together with the registry as mutated so far (early `return`). -/
def start_deps (starter : String → Reg → ActionResult × Reg) :
    List String → Reg → Except (String × Reg) Reg
  | [], reg => .ok reg
  | dep :: rest, reg =>
      let (dep_result, reg') := starter dep reg
      if dep_result.success then start_deps starter rest reg'
      else .error (dep, reg')

/-- `ApplicationManager.start_application`.  The `apps` parameter is the
manager's fixed `applications` catalog, `reg` its `running_instances` dict. -/
def start_application (rt : Runtime) (now : Nat)
    (apps : List (String × ApplicationDefinition)) :
    Nat → String → Reg → ActionResult × Reg
  | 0, _, reg => (fuelExhausted, reg)
  | fuel + 1, app_name, reg =>
      match lookupKey apps app_name with
      | none =>
          ({ success := false,
             error := some ("Application '" ++ app_name ++ "' not found") }, reg)
      | some app_def =>
          -- already-running short-circuit
          if runningInstance reg app_name then
            ({ success := true,
               message := some (app_def.display_name ++ " is already running") }, reg)
          else
            -- `if app_def.dependencies:` — dependency loop, early return on failure
            match start_deps (start_application rt now apps fuel)
                    app_def.dependencies reg with
            | .error (dep, reg') =>
                ({ success := false,
                   error := some ("Failed to start dependency: " ++ dep) }, reg')
            | .ok reg' =>
                -- build the docker command and invoke the runtime
                match rt.launch app_def with
                | .ok container_id =>
                    -- the Python local is named `instance`, a Lean keyword
                    let inst : ApplicationInstance :=
                      { definition := app_def, container_id := container_id,
                        status := ApplicationStatus.running,
                        started_at := some now }
                    ({ success := true,
                       message := some (app_def.display_name ++ " started successfully"),
                       container_id := some container_id,
                       web_url := webUrl app_def },
                     insertKey reg' app_name inst)
                | .error error_msg =>
                    ({ success := false, error := some error_msg }, reg')

/-- `ApplicationManager.stop_application` (`_now` only stamps the
`stopped_at` of the instance that is immediately dropped from the registry). -/
def stop_application (rt : Runtime) (_now : Nat) (reg : Reg) (app_name : String) :
    ActionResult × Reg :=
  match lookupKey reg app_name with
  | none =>
      ({ success := false,
         error := some ("Application '" ++ app_name ++ "' is not running") }, reg)
  | some inst =>
      match rt.stop inst.container_id with
      | .ok _ =>
          -- the code also fires `docker rm`, mutates the (about to be dropped)
          -- instance to `STOPPED`/`stopped_at`, and deletes the registry entry
          ({ success := true,
             message := some (inst.definition.display_name
                               ++ " stopped successfully") },
           eraseKey reg app_name)
      | .error error_msg =>
          ({ success := false, error := some error_msg }, reg)

/-- `ApplicationManager.restart_application` (the 2-second settle sleep has no
state effect). -/
def restart_application (rt : Runtime) (now : Nat)
    (apps : List (String × ApplicationDefinition)) (fuel : Nat)
    (reg : Reg) (app_name : String) : ActionResult × Reg :=
  let (stop_result, reg') := stop_application rt now reg app_name
  if stop_result.success then start_application rt now apps fuel app_name reg'
  else (stop_result, reg')

/-- `ApplicationManager.get_application_status`. -/
def get_application_status (reg : Reg) (app_name : String) : String :=
  match lookupKey reg app_name with
  | some inst => inst.status.value
  | none => ApplicationStatus.stopped.value

/-- One start/stop/restart call against the manager, carrying the runtime
oracle, clock tick and (for starts) recursion fuel used for that call. -/
inductive MgrOp where
  | start (rt : Runtime) (now fuel : Nat) (name : String)
  | stop (rt : Runtime) (now : Nat) (name : String)
  | restart (rt : Runtime) (now fuel : Nat) (name : String)

/-- The registry after one manager operation (the returned dict is dropped). -/
def applyOp (apps : List (String × ApplicationDefinition)) (reg : Reg) :
    MgrOp → Reg
  | .start rt now fuel name => (start_application rt now apps fuel name reg).2
  | .stop rt now name => (stop_application rt now reg name).2
  | .restart rt now fuel name => (restart_application rt now apps fuel reg name).2

/-- The registry after a sequence of manager operations. -/
def applyOps (apps : List (String × ApplicationDefinition)) (reg : Reg)
    (ops : List MgrOp) : Reg :=
  ops.foldl (applyOp apps) reg

/-- Every instance held in `running_instances` has status `Running`. -/
def RegistryInv (reg : Reg) : Prop :=
  ∀ p ∈ reg, (Prod.snd p).status = ApplicationStatus.running

/-- The registry binds each name at most once (true of a Python dict). -/
def WFReg (reg : Reg) : Prop :=
  (reg.map Prod.fst).Nodup

/-! ## Workflow engine data model (`app/workflow_engine.py`) -/

/-- `WorkflowStatus` enum. -/
inductive WorkflowStatus where
  | pending
  | running
  | completed
  | failed
  | cancelled
deriving DecidableEq, Repr

/-- `WorkflowStatus.value` strings. -/
def WorkflowStatus.value : WorkflowStatus → String
  | .pending => "pending"
  | .running => "running"
  | .completed => "completed"
  | .failed => "failed"
  | .cancelled => "cancelled"

/-- `StepType` enum. -/
inductive StepType where
  | command
  | application
  | delay
  | condition
  | loop
deriving DecidableEq, Repr

/-- `StepType.value` strings (the constructor argument of `StepType(...)`). -/
def StepType.value : StepType → String
  | .command => "command"
  | .application => "application"
  | .delay => "delay"
  | .condition => "condition"
  | .loop => "loop"

/-- `str(step.type)` as interpolated into Python error messages. -/
def StepType.pyStr : StepType → String
  | .command => "StepType.COMMAND"
  | .application => "StepType.APPLICATION"
  | .delay => "StepType.DELAY"
  | .condition => "StepType.CONDITION"
  | .loop => "StepType.LOOP"

/-- `StepType(s)`: the enum constructor, raising `ValueError` on any string
that is not a member value. -/
def parseStepType (s : String) : Except String StepType :=
  if s = "command" then .ok .command
  else if s = "application" then .ok .application
  else if s = "delay" then .ok .delay
  else if s = "condition" then .ok .condition
  else if s = "loop" then .ok .loop
  else .error ("'" ++ s ++ "' is not a valid StepType")

/-- The step `parameters` dict, modelled by the keys the interpreters read
(`command`, `action`, `application`, `duration`); an absent key is `none`. -/
structure StepParameters where
  command : Option String := none
  action : Option String := none
  application : Option String := none
  duration : Option Nat := none
deriving DecidableEq, Repr

/-- `WorkflowStep` dataclass. -/
structure WorkflowStep where
  id : String
  type : StepType
  name : String
  description : String
  parameters : StepParameters
  timeout : Nat := 30
  retry_count : Nat := 0
  on_failure : String := "stop"
deriving DecidableEq, Repr

/-- `WorkflowDefinition` dataclass (`variables` modelled as a string map,
`created_at` as a tick). -/
structure WorkflowDefinition where
  id : String
  name : String
  display_name : String
  description : String
  category : String
  steps : List WorkflowStep
  variables_map : List (String × String)  -- the Python field is `variables`, a Lean keyword
  created_by : String
  created_at : Nat
  tags : List String
  is_public : Bool := false
deriving DecidableEq, Repr

/-- The execution-scoped context dict (opaque to the engine, forwarded to the
collaborators). -/
abbrev Context := List (String × String)

/-- The `{success, message, data}` result of the AI command collaborator. -/
structure CommandResult where
  success : Bool
  message : String
  data : Option String := none
deriving DecidableEq, Repr

/-- The dict returned by `_execute_step`, one variant per interpreter. -/
inductive StepOutput where
  | command (command : String) (success : Bool) (message : String)
      (data : Option String)
  | application (action application : String) (success : Bool) (message : String)
      (data : ActionResult)
  | delay (duration : Nat) (message : String)
deriving DecidableEq, Repr

/-- A per-step result record appended to `execution.results`. -/
structure StepResult where
  step_id : String
  step_name : String
  success : Bool
  result : Option StepOutput := none
  error : Option String := none
  executed_at : Nat
deriving DecidableEq, Repr

/-- `WorkflowExecution` dataclass. -/
structure WorkflowExecution where
  id : String
  workflow_id : String
  status : WorkflowStatus
  current_step : Nat
  started_at : Nat
  completed_at : Option Nat := none
  executed_by : String
  results : List StepResult
  error_message : Option String := none
  context : Context := []
deriving DecidableEq, Repr

/-- The collaborators a step dispatch reaches:
`ai_command_processor.process_command` (which may raise, hence `Except`) and
the three `application_manager` entry points (which catch every exception and
return a result dict, hence total functions of the application name). -/
structure StepEnv where
  process_command : String → Context → Except String CommandResult
  app_start : String → ActionResult
  app_stop : String → ActionResult
  app_restart : String → ActionResult

/-- The engine's two registries (`self.workflows`, `self.executions`). -/
structure EngineState where
  workflows : List (String × WorkflowDefinition)
  executions : List (String × WorkflowExecution)
deriving DecidableEq

/-! ### Step interpreters -/

/-- `WorkflowEngine._execute_command_step` (`if not command:` catches both a
missing key and an empty string). -/
def execute_command_step (env : StepEnv) (step : WorkflowStep) (ctx : Context) :
    Except String StepOutput :=
  match step.parameters.command with
  | none => .error "Command step missing 'command' parameter"
  | some command =>
      if command = "" then .error "Command step missing 'command' parameter"
      else
        match env.process_command command ctx with
        | .error e => .error e
        | .ok r => .ok (.command command r.success r.message r.data)

/-- `WorkflowEngine._execute_application_step`. -/
def execute_application_step (env : StepEnv) (step : WorkflowStep)
    (_ctx : Context) : Except String StepOutput :=
  match step.parameters.action, step.parameters.application with
  | some action, some application =>
      if action = "" ∨ application = "" then
        .error "Application step missing 'action' or 'application' parameter"
      else if action = "start" then
        let r := env.app_start application
        .ok (.application action application r.success (r.message.getD "") r)
      else if action = "stop" then
        let r := env.app_stop application
        .ok (.application action application r.success (r.message.getD "") r)
      else if action = "restart" then
        let r := env.app_restart application
        .ok (.application action application r.success (r.message.getD "") r)
      else .error ("Unsupported application action: " ++ action)
  | _, _ => .error "Application step missing 'action' or 'application' parameter"

/-- `WorkflowEngine._execute_delay_step` (the `asyncio.sleep` has no state
effect; the step always succeeds). -/
def execute_delay_step (_env : StepEnv) (step : WorkflowStep) (_ctx : Context) :
    Except String StepOutput :=
  let duration := step.parameters.duration.getD 1
  .ok (.delay duration ("Waited for " ++ toString duration ++ " seconds"))

/-- `WorkflowEngine._execute_step`: dispatch on the step kind; any other kind
raises `ValueError(f"Unsupported step type: {step.type}")`. -/
def execute_step (env : StepEnv) (step : WorkflowStep) (ctx : Context) :
    Except String StepOutput :=
  match step.type with
  | .command => execute_command_step env step ctx
  | .application => execute_application_step env step ctx
  | .delay => execute_delay_step env step ctx
  | t => .error ("Unsupported step type: " ++ t.pyStr)

/-- The success record appended by `_execute_workflow_steps`. -/
def successRecord (step : WorkflowStep) (out : StepOutput) (now : Nat) :
    StepResult :=
  { step_id := step.id, step_name := step.name, success := true,
    result := some out, executed_at := now }

/-- The failure record appended by `_execute_workflow_steps`. -/
def failureRecord (step : WorkflowStep) (e : String) (now : Nat) : StepResult :=
  { step_id := step.id, step_name := step.name, success := false,
    error := some e, executed_at := now }

/-! ### The background execution unit

`_execute_workflow_steps` runs as an asyncio task; its only suspension points
are the `await self._execute_step(...)` calls, so other coroutines (notably
`cancel_execution` callers) interleave exactly between the atomic segments
delimited by those awaits.  `TaskPhase` is the unit's control position at a
suspension point and `task_segment` runs one atomic segment. -/

/-- Control position of the background unit between suspension points. -/
inductive TaskPhase where
  | init
  | stepWait (wf : WorkflowDefinition) (i : Nat)
  | finished
deriving DecidableEq

/-- In-place mutation of `self.executions[eid]`. -/
def updateExec (st : EngineState) (eid : String)
    (f : WorkflowExecution → WorkflowExecution) : EngineState :=
  match lookupKey st.executions eid with
  | none => st
  | some ex => { st with executions := insertKey st.executions eid (f ex) }

/-- One atomic segment of `_execute_workflow_steps`.

* From `init`: look up the execution and — re-resolving it from the mutable
  catalog — its workflow; a missing workflow id is the `KeyError` swallowed by
  the outer `except`, which marks the execution `FAILED` with
  `str(KeyError(workflow_id))` as its message.  Otherwise set `RUNNING`, and
  either finish an empty step list as `COMPLETED` or dispatch step 0.
* From `stepWait wf i`: step `i`'s interpreter call returns; append the
  success or failure record; on failure with `on_failure == "stop"` mark the
  execution `FAILED` and stop; otherwise (including `retry`, which has no
  implemented behavior, and `continue`) advance to step `i+1` or, after the
  last step, mark `COMPLETED`.  The loop never consults `execution.status`,
  so a cancellation is not observed here. -/
def task_segment (env : StepEnv) (now : Nat) (eid : String) :
    EngineState × TaskPhase → EngineState × TaskPhase
  | (st, .init) =>
      match lookupKey st.executions eid with
      | none => (st, .finished)
      | some ex =>
          match lookupKey st.workflows ex.workflow_id with
          | none =>
              (updateExec st eid (fun e =>
                { e with status := .failed,
                         error_message := some ("'" ++ ex.workflow_id ++ "'"),
                         completed_at := some now }), .finished)
          | some wf =>
              if wf.steps.isEmpty then
                (updateExec st eid (fun e =>
                  { e with status := .completed, completed_at := some now }),
                 .finished)
              else
                (updateExec st eid (fun e =>
                  { e with status := .running, current_step := 0 }),
                 .stepWait wf 0)
  | (st, .stepWait wf i) =>
      match lookupKey st.executions eid with
      | none => (st, .finished)
      | some ex =>
          match wf.steps.get? i with
          | none => (st, .finished)
          | some step =>
              match execute_step env step ex.context with
              | .ok out =>
                  let st1 := updateExec st eid (fun e =>
                    { e with results := e.results ++ [successRecord step out now] })
                  if i + 1 < wf.steps.length then
                    (updateExec st1 eid (fun e => { e with current_step := i + 1 }),
                     .stepWait wf (i + 1))
                  else
                    (updateExec st1 eid (fun e =>
                      { e with status := .completed, completed_at := some now }),
                     .finished)
              | .error err =>
                  let st1 := updateExec st eid (fun e =>
                    { e with results := e.results ++ [failureRecord step err now] })
                  if step.on_failure = "stop" then
                    (updateExec st1 eid (fun e =>
                      { e with status := .failed,
                               error_message := some ("Step '" ++ step.name
                                                      ++ "' failed: " ++ err),
                               completed_at := some now }), .finished)
                  else
                    if i + 1 < wf.steps.length then
                      (updateExec st1 eid (fun e => { e with current_step := i + 1 }),
                       .stepWait wf (i + 1))
                    else
                      (updateExec st1 eid (fun e =>
                        { e with status := .completed, completed_at := some now }),
                       .finished)
  | (st, .finished) => (st, .finished)

/-- `n` uninterrupted segments of the background unit. -/
def run_task (env : StepEnv) (now : Nat) (eid : String) :
    Nat → EngineState × TaskPhase → EngineState × TaskPhase
  | 0, s => s
  | n + 1, s => run_task env now eid n (task_segment env now eid s)

/-! ### Engine operations -/

/-- `WorkflowEngine.execute_workflow`: raises `ValueError` for an unknown
workflow id, otherwise registers a `PENDING` execution and schedules the
background unit (which starts in phase `init`); the fresh uuid is the
`execution_id` parameter. -/
def execute_workflow (st : EngineState) (workflow_id user_id : String)
    (ctx : Context) (execution_id : String) (now : Nat) :
    Except String (String × EngineState) :=
  if (lookupKey st.workflows workflow_id).isSome then
    let ex : WorkflowExecution :=
      { id := execution_id, workflow_id := workflow_id,
        status := .pending, current_step := 0, started_at := now,
        completed_at := none, executed_by := user_id, results := [],
        context := ctx }
    .ok (execution_id,
         { st with executions := insertKey st.executions execution_id ex })
  else .error ("Workflow '" ++ workflow_id ++ "' not found")

/-- `WorkflowEngine.cancel_execution`. -/
def cancel_execution (st : EngineState) (execution_id : String) (now : Nat) :
    Bool × EngineState :=
  match lookupKey st.executions execution_id with
  | none => (false, st)
  | some ex =>
      if ex.status = WorkflowStatus.running then
        (true, updateExec st execution_id (fun e =>
          { e with status := .cancelled, completed_at := some now }))
      else (false, st)

/-- The dict built by `get_execution_status`. -/
structure ExecutionStatusView where
  execution_id : String
  workflow_name : String
  status : String
  current_step : Nat
  total_steps : Nat
  started_at : Nat
  completed_at : Option Nat
  results : List StepResult
  error_message : Option String
deriving DecidableEq, Repr

/-- `WorkflowEngine.get_execution_status`: `None` for an unknown execution id,
but an uncaught `KeyError` (modelled as `.error`) when the execution's
workflow id is no longer in the catalog. -/
def get_execution_status (st : EngineState) (execution_id : String) :
    Except String (Option ExecutionStatusView) :=
  match lookupKey st.executions execution_id with
  | none => .ok none
  | some ex =>
      match lookupKey st.workflows ex.workflow_id with
      | none => .error ("'" ++ ex.workflow_id ++ "'")
      | some wf =>
          .ok (some
            { execution_id := execution_id,
              workflow_name := wf.display_name,
              status := ex.status.value,
              current_step := ex.current_step,
              total_steps := wf.steps.length,
              started_at := ex.started_at,
              completed_at := ex.completed_at,
              results := ex.results,
              error_message := ex.error_message })

/-- One entry of `workflow_data['steps']` (absent keys are `none`; `type` is
the raw string fed to `StepType(...)`). -/
structure StepData where
  id : Option String := none
  type : String
  name : String
  description : Option String := none
  parameters : Option StepParameters := none
  timeout : Option Nat := none
  retry_count : Option Nat := none
  on_failure : Option String := none
deriving DecidableEq, Repr

/-- The `workflow_data` dict of `create_workflow`. -/
structure WorkflowData where
  name : String
  display_name : Option String := none
  description : Option String := none
  category : Option String := none
  steps : List StepData := []
  variables_map : List (String × String) := []  -- Python key `variables`
  tags : List String := []
  is_public : Option Bool := none
deriving DecidableEq, Repr

/-- One `WorkflowStep(...)` construction inside `create_workflow` (`fresh` is
the uuid taken when `id` is absent); a `ValueError` from `StepType(...)`
propagates. -/
def buildStep (fresh : String) (d : StepData) : Except String WorkflowStep :=
  match parseStepType d.type with
  | .error e => .error e
  | .ok t =>
      .ok { id := d.id.getD fresh, type := t, name := d.name,
            description := d.description.getD "",
            parameters := d.parameters.getD {},
            timeout := d.timeout.getD 30,
            retry_count := d.retry_count.getD 0,
            on_failure := d.on_failure.getD "stop" }

/-- The step-building loop of `create_workflow` (`fresh k` is the uuid drawn
for the `k`-th step). -/
def buildSteps (fresh : Nat → String) :
    Nat → List StepData → Except String (List WorkflowStep)
  | _, [] => .ok []
  | k, d :: rest =>
      match buildStep (fresh k) d with
      | .error e => .error e
      | .ok s =>
          match buildSteps fresh (k + 1) rest with
          | .error e => .error e
          | .ok ss => .ok (s :: ss)

/-- `WorkflowEngine.create_workflow`: builds each step — the only validation
is the `StepType` enum construction, whose `ValueError` propagates — and
stores the new definition; the fresh workflow uuid is `workflow_id`. -/
def create_workflow (st : EngineState) (wd : WorkflowData) (user_id : String)
    (workflow_id : String) (fresh : Nat → String) (now : Nat) :
    Except String (String × EngineState) :=
  match buildSteps fresh 0 wd.steps with
  | .error e => .error e
  | .ok steps =>
      let wf : WorkflowDefinition :=
        { id := workflow_id, name := wd.name,
          display_name := wd.display_name.getD wd.name,
          description := wd.description.getD "",
          category := wd.category.getD "custom",
          steps := steps, variables_map := wd.variables_map,
          created_by := user_id, created_at := now, tags := wd.tags,
          is_public := wd.is_public.getD false }
      .ok (workflow_id,
           { st with workflows := insertKey st.workflows workflow_id wf })

/-- `WorkflowEngine.delete_workflow`. -/
def delete_workflow (st : EngineState) (workflow_id user_id : String) :
    Bool × EngineState :=
  match lookupKey st.workflows workflow_id with
  | none => (false, st)
  | some wf =>
      if wf.created_by ≠ user_id ∧ wf.is_public = false then (false, st)
      else (true, { st with workflows := eraseKey st.workflows workflow_id })

/-! ## Dictionary lemmas -/

theorem lookupKey_insertKey_self {α : Type} (m : List (String × α)) (k : String)
    (v : α) : lookupKey (insertKey m k v) k = some v := by
  simp [insertKey, lookupKey]

theorem eraseKey_sublist {α : Type} (m : List (String × α)) (k : String) :
    (eraseKey m k).Sublist m := by
  induction m with
  | nil => simp [eraseKey]
  | cons p rest ih =>
      rw [eraseKey]
      by_cases h : p.1 = k
      · simp only [h, if_pos rfl]
        exact ih.cons _
      · simp only [if_neg h]
        exact ih.cons₂ _

theorem mem_of_mem_eraseKey {α : Type} {m : List (String × α)} {k : String}
    {p : String × α} (h : p ∈ eraseKey m k) : p ∈ m :=
  (eraseKey_sublist m k).mem h

theorem fst_ne_of_mem_eraseKey {α : Type} {m : List (String × α)} {k : String}
    {p : String × α} (h : p ∈ eraseKey m k) : p.1 ≠ k := by
  induction m with
  | nil => simp [eraseKey] at h
  | cons q rest ih =>
      rw [eraseKey] at h
      by_cases hq : q.1 = k
      · exact ih (by simpa [hq] using h)
      · rcases (by simpa [hq] using h : p = q ∨ p ∈ eraseKey rest k) with rfl | h'
        · exact hq
        · exact ih h'

theorem nodup_keys_eraseKey {α : Type} {m : List (String × α)} (k : String)
    (h : (m.map Prod.fst).Nodup) : ((eraseKey m k).map Prod.fst).Nodup :=
  h.sublist ((eraseKey_sublist m k).map Prod.fst)

theorem nodup_keys_insertKey {α : Type} {m : List (String × α)} (k : String)
    (v : α) (h : (m.map Prod.fst).Nodup) :
    ((insertKey m k v).map Prod.fst).Nodup := by
  rw [insertKey]
  refine List.nodup_cons.2 ⟨?_, nodup_keys_eraseKey k h⟩
  intro hk
  rcases List.mem_map.1 hk with ⟨p, hp, hpk⟩
  exact fst_ne_of_mem_eraseKey hp hpk

theorem countKey_eraseKey_self {α : Type} (m : List (String × α)) (k : String) :
    countKey (eraseKey m k) k = 0 := by
  induction m with
  | nil => simp [eraseKey, countKey]
  | cons p rest ih =>
      rw [eraseKey]
      by_cases h : p.1 = k
      · simpa [h] using ih
      · simpa [countKey, List.filter, h] using ih

theorem countKey_insertKey_self {α : Type} (m : List (String × α)) (k : String)
    (v : α) : countKey (insertKey m k v) k = 1 := by
  have h := countKey_eraseKey_self m k
  simp [insertKey, countKey, List.filter] at h ⊢
  simpa [countKey] using h

theorem mem_of_lookupKey {α : Type} {m : List (String × α)} {k : String}
    {v : α} (h : lookupKey m k = some v) : (k, v) ∈ m := by
  induction m with
  | nil => simp [lookupKey] at h
  | cons p rest ih =>
      rw [lookupKey] at h
      by_cases hk : p.1 = k
      · simp only [if_pos hk] at h
        have h2 : p.2 = v := Option.some.inj h
        have hp : (k, v) = p := by rw [← hk, ← h2]
        rw [hp]
        exact List.mem_cons_self _ _
      · simp only [if_neg hk] at h
        exact List.mem_cons_of_mem _ (ih h)

theorem countKey_eq_zero_of_not_mem {α : Type} {m : List (String × α)}
    {k : String} (h : k ∉ m.map Prod.fst) : countKey m k = 0 := by
  induction m with
  | nil => simp [countKey]
  | cons p rest ih =>
      simp only [List.map_cons, List.mem_cons, not_or] at h
      have : p.1 ≠ k := fun hp => h.1 hp.symm
      simpa [countKey, List.filter, this] using ih h.2

theorem countKey_eq_one_of_nodup {α : Type} {m : List (String × α)} {k : String}
    {v : α} (hn : (m.map Prod.fst).Nodup) (h : lookupKey m k = some v) :
    countKey m k = 1 := by
  induction m with
  | nil => simp [lookupKey] at h
  | cons p rest ih =>
      rw [lookupKey] at h
      simp only [List.map_cons, List.nodup_cons] at hn
      by_cases hk : p.1 = k
      · have hout : k ∉ rest.map Prod.fst := hk ▸ hn.1
        simpa [countKey, List.filter, hk] using countKey_eq_zero_of_not_mem hout
      · simp only [if_neg hk] at h
        simpa [countKey, List.filter, hk] using ih hn.2 h

theorem lookupKey_eq_none_of_not_mem {α : Type} {m : List (String × α)}
    {k : String} (h : k ∉ m.map Prod.fst) : lookupKey m k = none := by
  induction m with
  | nil => simp [lookupKey]
  | cons p rest ih =>
      simp only [List.map_cons, List.mem_cons, not_or] at h
      have : p.1 ≠ k := fun hp => h.1 hp.symm
      simpa [lookupKey, this] using ih h.2

/-- `runningInstance` holds exactly when a registered instance is `Running`. -/
theorem runningInstance_iff {reg : Reg} {x : String} :
    runningInstance reg x = true ↔
      ∃ inst, lookupKey reg x = some inst ∧
        inst.status = ApplicationStatus.running := by
  unfold runningInstance
  cases h : lookupKey reg x with
  | none => simp
  | some inst => simp [h]

theorem runningInstance_eq_false_of_none {reg : Reg} {x : String}
    (h : lookupKey reg x = none) : runningInstance reg x = false := by
  simp [runningInstance, h]

/-! ## Registry evolution through the orchestrator

`RegEvolves reg reg'` captures what any `start`/`stop`/`restart` call does to
the `running_instances` dict: keys stay duplicate-free, and every entry of the
new registry either was already registered or was freshly registered with
status `Running`. -/

/-- Relation between the registry before and after an orchestrator call. -/
def RegEvolves (reg reg' : Reg) : Prop :=
  ((reg.map Prod.fst).Nodup → (reg'.map Prod.fst).Nodup) ∧
  ∀ p ∈ reg', p ∈ reg ∨ (Prod.snd p).status = ApplicationStatus.running

theorem RegEvolves.rfl (reg : Reg) : RegEvolves reg reg :=
  ⟨fun h => h, fun _ hp => Or.inl hp⟩

theorem RegEvolves.trans {r1 r2 r3 : Reg} (h12 : RegEvolves r1 r2)
    (h23 : RegEvolves r2 r3) : RegEvolves r1 r3 := by
  refine ⟨fun h => h23.1 (h12.1 h), fun p hp => ?_⟩
  rcases h23.2 p hp with h | h
  · exact h12.2 p h
  · exact Or.inr h

theorem RegEvolves.insert_running (reg : Reg) (k : String)
    {inst : ApplicationInstance}
    (hrun : inst.status = ApplicationStatus.running) :
    RegEvolves reg (insertKey reg k inst) := by
  refine ⟨nodup_keys_insertKey k inst, fun p hp => ?_⟩
  rw [insertKey] at hp
  rcases List.mem_cons.1 hp with rfl | hp'
  · exact Or.inr hrun
  · exact Or.inl (mem_of_mem_eraseKey hp')

theorem RegEvolves.erase (reg : Reg) (k : String) :
    RegEvolves reg (eraseKey reg k) :=
  ⟨nodup_keys_eraseKey k, fun _ hp => Or.inl (mem_of_mem_eraseKey hp)⟩

/-- Registry of a dependency-loop outcome (updated on both exits). -/
def depsReg : Except (String × Reg) Reg → Reg
  | .ok reg => reg
  | .error (_, reg) => reg

theorem start_deps_evolves (starter : String → Reg → ActionResult × Reg)
    (hstart : ∀ d reg, RegEvolves reg (starter d reg).2) :
    ∀ (deps : List String) (reg : Reg),
      RegEvolves reg (depsReg (start_deps starter deps reg)) := by
  intro deps
  induction deps with
  | nil => intro reg; simpa [start_deps, depsReg] using RegEvolves.rfl reg
  | cons d rest ih =>
      intro reg
      rw [start_deps]
      rcases hres : starter d reg with ⟨res, reg'⟩
      have h1 : RegEvolves reg reg' := by
        have := hstart d reg
        rwa [hres] at this
      by_cases hs : res.success
      · simpa [hres, hs] using h1.trans (ih reg')
      · simpa [hres, hs, depsReg] using h1

theorem start_application_evolves (rt : Runtime) (now : Nat)
    (apps : List (String × ApplicationDefinition)) :
    ∀ (fuel : Nat) (name : String) (reg : Reg),
      RegEvolves reg (start_application rt now apps fuel name reg).2 := by
  intro fuel
  induction fuel with
  | zero => intro name reg; simpa [start_application] using RegEvolves.rfl reg
  | succ f ih =>
      intro name reg
      have hdeps : ∀ deps,
          RegEvolves reg (depsReg (start_deps (start_application rt now apps f)
            deps reg)) :=
        fun deps => start_deps_evolves (start_application rt now apps f)
          (fun d' reg' => ih d' reg') deps reg
      unfold start_application
      split
      · exact RegEvolves.rfl reg
      · split
        · exact RegEvolves.rfl reg
        · rename_i d _ _
          rcases hres : start_deps (start_application rt now apps f)
              d.dependencies reg with ⟨dep, reg'⟩ | reg'
          · have h1 := hdeps d.dependencies
            rw [hres] at h1
            simpa [depsReg] using h1
          · have h1 := hdeps d.dependencies
            rw [hres] at h1
            simp only [depsReg] at h1
            cases hL : rt.launch d with
            | ok cid =>
                simpa [hL] using h1.trans (RegEvolves.insert_running reg' name rfl)
            | error msg => simpa [hL] using h1

theorem stop_application_evolves (rt : Runtime) (now : Nat) (reg : Reg)
    (name : String) :
    RegEvolves reg (stop_application rt now reg name).2 := by
  unfold stop_application
  split
  · exact RegEvolves.rfl reg
  · split
    · exact RegEvolves.erase reg name
    · exact RegEvolves.rfl reg

theorem restart_application_evolves (rt : Runtime) (now : Nat)
    (apps : List (String × ApplicationDefinition)) (fuel : Nat) (reg : Reg)
    (name : String) :
    RegEvolves reg (restart_application rt now apps fuel reg name).2 := by
  rw [restart_application]
  rcases hstop : stop_application rt now reg name with ⟨res, reg'⟩
  have h1 : RegEvolves reg reg' := by
    have := stop_application_evolves rt now reg name
    rwa [hstop] at this
  by_cases hs : res.success
  · simpa [hs] using h1.trans (start_application_evolves rt now apps fuel name reg')
  · simpa [hs] using h1

theorem applyOp_evolves (apps : List (String × ApplicationDefinition))
    (reg : Reg) (op : MgrOp) : RegEvolves reg (applyOp apps reg op) := by
  cases op with
  | start rt now fuel name => exact start_application_evolves rt now apps fuel name reg
  | stop rt now name => exact stop_application_evolves rt now reg name
  | restart rt now fuel name => exact restart_application_evolves rt now apps fuel reg name

theorem applyOps_evolves (apps : List (String × ApplicationDefinition)) :
    ∀ (ops : List MgrOp) (reg : Reg), RegEvolves reg (applyOps apps reg ops) := by
  intro ops
  induction ops with
  | nil => intro reg; simpa [applyOps] using RegEvolves.rfl reg
  | cons op rest ih =>
      intro reg
      have h1 := applyOp_evolves apps reg op
      have h2 := ih (applyOp apps reg op)
      simpa [applyOps] using h1.trans (by simpa [applyOps] using h2)

/-- A successful `start_application` call leaves the target name registered
with a `Running` instance, implies the name is catalogued, and (from a
duplicate-free registry) leaves exactly one binding for the name. -/
theorem start_success_state (rt : Runtime) (now : Nat)
    (apps : List (String × ApplicationDefinition)) :
    ∀ (fuel : Nat) (x : String) (reg : Reg) (res : ActionResult) (reg' : Reg),
      start_application rt now apps fuel x reg = (res, reg') →
      res.success = true →
      (∃ d, lookupKey apps x = some d) ∧
      (∃ inst, lookupKey reg' x = some inst ∧
        inst.status = ApplicationStatus.running) ∧
      ((reg.map Prod.fst).Nodup → countKey reg' x = 1) := by
  intro fuel
  cases fuel with
  | zero =>
      intro x reg res reg' h hs
      rw [start_application] at h
      cases h
      simp [fuelExhausted] at hs
  | succ f =>
      intro x reg res reg' h hs
      rw [start_application] at h
      cases hd : lookupKey apps x with
      | none =>
          simp only [hd] at h
          cases h
          simp at hs
      | some d =>
          simp only [hd] at h
          cases hR : runningInstance reg x with
          | true =>
              rw [if_pos hR] at h
              cases h
              rcases runningInstance_iff.1 hR with ⟨inst, hli, hrun⟩
              exact ⟨⟨d, rfl⟩, ⟨inst, hli, hrun⟩,
                fun hn => countKey_eq_one_of_nodup hn hli⟩
          | false =>
              rw [if_neg (by simp [hR])] at h
              cases hdp : start_deps (start_application rt now apps f)
                  d.dependencies reg with
              | error e =>
                  rcases e with ⟨dep, regE⟩
                  simp only [hdp] at h
                  cases h
                  simp at hs
              | ok regO =>
                  simp only [hdp] at h
                  cases hL : rt.launch d with
                  | ok cid =>
                      simp only [hL] at h
                      cases h
                      exact ⟨⟨d, rfl⟩, ⟨_, lookupKey_insertKey_self .., rfl⟩,
                        fun _ => countKey_insertKey_self ..⟩
                  | error m =>
                      simp only [hL] at h
                      cases h
                      simp at hs

/-! ## Concrete fixtures for witnesses and counterexamples -/

/-- A runtime oracle whose launches and stops always succeed. -/
def rtOk : Runtime :=
  { launch := fun d => .ok ("cid-" ++ d.name), stop := fun _ => .ok () }

/-- A runtime oracle that fails every launch and every stop. -/
def rtFail : Runtime :=
  { launch := fun _ => .error "launch failed",
    stop := fun _ => .error "stop failed" }

/-- A small application definition for concrete registry scenarios. -/
def cxDef : ApplicationDefinition :=
  { name := "firefox", display_name := "Firefox Browser", description := "",
    category := .general, container_image := "linuxserver/firefox:latest",
    container_name := "helios-firefox", ports := [], volumes := [],
    environment := [] }

/-- A registered running instance of `cxDef`. -/
def cxInst : ApplicationInstance :=
  { definition := cxDef, container_id := "cid-1",
    status := ApplicationStatus.running, started_at := some 0 }

/-- A registry holding exactly the running `firefox` instance. -/
def cxReg : Reg := [("firefox", cxInst)]

/-! ## Claims about the Application Orchestrator -/

/-- C9: every instance stored in `running_instances` after any sequence of
start/stop/restart operations from the empty registry has status `Running`,
and `get_application_status` can only report "running" (registered) or
"stopped" (unregistered); `Starting`, `Stopping` and `Error` are never
observable through the registry. -/
theorem registry_status_invariant
    (apps : List (String × ApplicationDefinition)) (ops : List MgrOp)
    (name : String) :
    RegistryInv (applyOps apps [] ops) ∧
    (get_application_status (applyOps apps [] ops) name = "running" ∨
     get_application_status (applyOps apps [] ops) name = "stopped") := by
  have h := applyOps_evolves apps ops []
  have inv : RegistryInv (applyOps apps [] ops) := by
    intro p hp
    rcases h.2 p hp with hc | hc
    · simp at hc
    · exact hc
  refine ⟨inv, ?_⟩
  cases hl : lookupKey (applyOps apps [] ops) name with
  | none =>
      right
      simp [get_application_status, hl, ApplicationStatus.value]
  | some inst =>
      left
      have hrun := inv _ (mem_of_lookupKey hl)
      simp only at hrun
      simp [get_application_status, hl, hrun, ApplicationStatus.value]

/-- Witness for C9 at a concrete operation sequence. -/
theorem registry_status_invariant_witness :
    RegistryInv (applyOps heliosApplications []
      [MgrOp.start rtOk 0 2 "odoo", MgrOp.stop rtFail 1 "odoo"]) ∧
    (get_application_status (applyOps heliosApplications []
        [MgrOp.start rtOk 0 2 "odoo", MgrOp.stop rtFail 1 "odoo"]) "odoo"
        = "running" ∨
     get_application_status (applyOps heliosApplications []
        [MgrOp.start rtOk 0 2 "odoo", MgrOp.stop rtFail 1 "odoo"]) "odoo"
        = "stopped") :=
  registry_status_invariant heliosApplications
    [MgrOp.start rtOk 0 2 "odoo", MgrOp.stop rtFail 1 "odoo"] "odoo"

/-- C6: if a `start_application` call for `x` succeeds, then a second call —
with any runtime oracle, clock and fuel, so in particular without the launch
collaborator being consulted — reports success with the "already running"
message, leaves the registry untouched, and the registry holds exactly one
binding for `x`. -/
theorem start_twice_idempotent (rt rt2 : Runtime) (now now2 fuel fuel2 : Nat)
    (apps : List (String × ApplicationDefinition)) (x : String)
    (reg0 reg1 : Reg) (res1 : ActionResult)
    (hwf : (reg0.map Prod.fst).Nodup)
    (h1 : start_application rt now apps fuel x reg0 = (res1, reg1))
    (hs : res1.success = true) :
    ∃ d, lookupKey apps x = some d ∧
      start_application rt2 now2 apps (fuel2 + 1) x reg1 =
        ({ success := true,
           message := some (d.display_name ++ " is already running") }, reg1) ∧
      countKey reg1 x = 1 := by
  obtain ⟨⟨d, hd⟩, ⟨inst, hli, hrun⟩, hcount⟩ :=
    start_success_state rt now apps fuel x reg0 res1 reg1 h1 hs
  refine ⟨d, hd, ?_, hcount hwf⟩
  have hR : runningInstance reg1 x = true :=
    runningInstance_iff.2 ⟨inst, hli, hrun⟩
  simp [start_application, hd, hR]

/-- Witness for C6: start `firefox` against a succeeding runtime, then start
it again against a runtime that fails every launch — the second call still
succeeds and changes nothing. -/
theorem start_twice_idempotent_witness :
    ∃ d, lookupKey heliosApplications "firefox" = some d ∧
      start_application rtFail 1 heliosApplications (0 + 1) "firefox"
          (start_application rtOk 0 heliosApplications 1 "firefox" []).2 =
        ({ success := true,
           message := some (d.display_name ++ " is already running") },
         (start_application rtOk 0 heliosApplications 1 "firefox" []).2) ∧
      countKey (start_application rtOk 0 heliosApplications 1 "firefox" []).2
        "firefox" = 1 :=
  start_twice_idempotent rtOk rtFail 0 1 1 0 heliosApplications "firefox" []
    (start_application rtOk 0 heliosApplications 1 "firefox" []).2
    (start_application rtOk 0 heliosApplications 1 "firefox" []).1
    (by simp) rfl rfl

/-- C7: for a catalogued application `A` whose definition lists exactly the
dependency `B` (itself catalogued, dependency-free and not running), a runtime
that fails to launch `B` makes `start_application A` fail with the
"Failed to start dependency" error and leaves the registry exactly as it was:
neither `A` nor `B` is registered. -/
theorem dependency_failure_atomic (rt : Runtime) (now fuel : Nat)
    (apps : List (String × ApplicationDefinition)) (A B : String)
    {dA dB : ApplicationDefinition} (reg : Reg) (msg : String)
    (hA : lookupKey apps A = some dA) (hdeps : dA.dependencies = [B])
    (hB : lookupKey apps B = some dB) (hBdeps : dB.dependencies = [])
    (hregA : lookupKey reg A = none) (hregB : lookupKey reg B = none)
    (hfail : rt.launch dB = .error msg) :
    start_application rt now apps (fuel + 2) A reg =
      ({ success := false,
         error := some ("Failed to start dependency: " ++ B) }, reg) ∧
    lookupKey reg A = none ∧ lookupKey reg B = none := by
  have hRA := runningInstance_eq_false_of_none hregA
  have hRB := runningInstance_eq_false_of_none hregB
  have hBstart : start_application rt now apps (fuel + 1) B reg =
      ({ success := false, error := some msg }, reg) := by
    simp [start_application, hB, hRB, hBdeps, start_deps, hfail]
  refine ⟨?_, hregA, hregB⟩
  rw [start_application]
  simp only [hA]
  rw [if_neg (by simp [hRA])]
  rw [hdeps, start_deps, hBstart]
  simp

/-- Witness for C7 at the catalog's `odoo` → `postgresql` dependency edge
with an always-failing runtime. -/
theorem dependency_failure_atomic_witness :
    start_application rtFail 0 heliosApplications (0 + 2) "odoo" [] =
      ({ success := false,
         error := some ("Failed to start dependency: " ++ "postgresql") }, []) ∧
    lookupKey ([] : Reg) "odoo" = none ∧
    lookupKey ([] : Reg) "postgresql" = none :=
  dependency_failure_atomic rtFail 0 0 heliosApplications "odoo" "postgresql"
    [] "launch failed" rfl rfl rfl rfl rfl rfl rfl

/-- C8: for a name that is neither catalogued nor registered, `start` fails
with the "not found" error, `stop` fails with the "is not running" error, and
both leave the registry unchanged. -/
theorem unknown_name_rejected (rt rt2 : Runtime) (now now2 fuel : Nat)
    (apps : List (String × ApplicationDefinition)) (reg : Reg) (name : String)
    (hcat : lookupKey apps name = none)
    (hreg : lookupKey reg name = none) :
    start_application rt now apps (fuel + 1) name reg =
      ({ success := false,
         error := some ("Application '" ++ name ++ "' not found") }, reg) ∧
    stop_application rt2 now2 reg name =
      ({ success := false,
         error := some ("Application '" ++ name ++ "' is not running") }, reg) := by
  constructor
  · simp [start_application, hcat]
  · simp [stop_application, hreg]

/-- Witness for C8 at the name "nonexistent". -/
theorem unknown_name_rejected_witness :
    start_application rtOk 0 heliosApplications (0 + 1) "nonexistent" [] =
      ({ success := false,
         error := some ("Application '" ++ "nonexistent" ++ "' not found") },
       []) ∧
    stop_application rtOk 0 [] "nonexistent" =
      ({ success := false,
         error := some ("Application '" ++ "nonexistent"
                         ++ "' is not running") }, []) :=
  unknown_name_rejected rtOk rtOk 0 0 0 heliosApplications [] "nonexistent"
    rfl rfl

/-- C3 counterexample: after a failed runtime stop the instance stays
registered with its status unchanged — still `Running`, not `Error` as the
claim states. -/
theorem stop_failure_status_counterexample :
    (stop_application rtFail 0 cxReg "firefox").1.success = false ∧
    (lookupKey (stop_application rtFail 0 cxReg "firefox").2 "firefox").map
        (fun i => i.status) = some ApplicationStatus.running ∧
    ApplicationStatus.running ≠ ApplicationStatus.error := by
  refine ⟨rfl, rfl, by decide⟩

/-- C3 (amended): with an instance registered for `name`, a failing runtime
stop makes `stop_application` return a failure carrying the runtime's error
and leaves the registry — hence the instance and its status — unchanged,
while a succeeding runtime stop deregisters the instance. -/
theorem stop_failure_keeps_instance (rt : Runtime) (now : Nat) (reg : Reg)
    (name : String) (inst : ApplicationInstance)
    (hreg : lookupKey reg name = some inst) :
    (∀ msg, rt.stop inst.container_id = .error msg →
      stop_application rt now reg name =
        ({ success := false, error := some msg }, reg)) ∧
    (rt.stop inst.container_id = .ok () →
      stop_application rt now reg name =
        ({ success := true,
           message := some (inst.definition.display_name
                             ++ " stopped successfully") },
         eraseKey reg name)) := by
  constructor
  · intro msg hmsg
    simp [stop_application, hreg, hmsg]
  · intro hok
    simp [stop_application, hreg, hok]

/-- Witness for the amended C3 at the concrete failing registry scenario. -/
theorem stop_failure_keeps_instance_witness :
    stop_application rtFail 0 cxReg "firefox" =
      ({ success := false, error := some "stop failed" }, cxReg) :=
  (stop_failure_keeps_instance rtFail 0 cxReg "firefox" cxInst rfl).1
    "stop failed" rfl

/-! ## Lemmas about the background execution unit -/

theorem run_task_add (env : StepEnv) (now : Nat) (eid : String) (m : Nat) :
    ∀ (n : Nat) (s : EngineState × TaskPhase),
      run_task env now eid (m + n) s =
        run_task env now eid m (run_task env now eid n s) := by
  intro n
  induction n with
  | zero => intro s; rfl
  | succ k ih =>
      intro s
      have : m + (k + 1) = (m + k) + 1 := by omega
      rw [this]
      show run_task env now eid (m + k) (task_segment env now eid s) = _
      rw [ih (task_segment env now eid s)]
      rfl

theorem run_task_finished (env : StepEnv) (now : Nat) (eid : String) :
    ∀ (n : Nat) (st : EngineState),
      run_task env now eid n (st, TaskPhase.finished) = (st, TaskPhase.finished) := by
  intro n
  induction n with
  | zero => intro st; rfl
  | succ k ih => intro st; exact ih st

theorem lookupKey_updateExec_self (st : EngineState) (eid : String)
    (f : WorkflowExecution → WorkflowExecution) (ex : WorkflowExecution)
    (hex : lookupKey st.executions eid = some ex) :
    lookupKey (updateExec st eid f).executions eid = some (f ex) := by
  simp [updateExec, hex, lookupKey_insertKey_self]

theorem updateExec_workflows (st : EngineState) (eid : String)
    (f : WorkflowExecution → WorkflowExecution) :
    (updateExec st eid f).workflows = st.workflows := by
  unfold updateExec
  cases lookupKey st.executions eid <;> rfl

/-- The `init` segment when the workflow is still catalogued and nonempty:
mark `Running` and dispatch step 0. -/
theorem task_segment_init (env : StepEnv) (now : Nat) (eid : String)
    (st : EngineState) (ex : WorkflowExecution) (wf : WorkflowDefinition)
    (hex : lookupKey st.executions eid = some ex)
    (hwf : lookupKey st.workflows ex.workflow_id = some wf)
    (hne : wf.steps ≠ []) :
    task_segment env now eid (st, TaskPhase.init) =
      (updateExec st eid (fun e =>
        { e with status := WorkflowStatus.running, current_step := 0 }),
       TaskPhase.stepWait wf 0) := by
  have hie : wf.steps.isEmpty = false := by
    cases hs : wf.steps with
    | nil => exact absurd hs hne
    | cons a l => rfl
  simp [task_segment, hex, hwf, hie]

/-- A step segment whose interpreter call succeeds, with further steps
remaining: record success and dispatch the next step. -/
theorem task_segment_step_ok_next (env : StepEnv) (now : Nat) (eid : String)
    (st : EngineState) (ex : WorkflowExecution) (wf : WorkflowDefinition)
    (i : Nat) (step : WorkflowStep) (out : StepOutput)
    (hex : lookupKey st.executions eid = some ex)
    (hstep : wf.steps.get? i = some step)
    (hout : execute_step env step ex.context = .ok out)
    (hlt : i + 1 < wf.steps.length) :
    task_segment env now eid (st, TaskPhase.stepWait wf i) =
      (updateExec (updateExec st eid (fun e =>
          { e with results := e.results ++ [successRecord step out now] })) eid
        (fun e => { e with current_step := i + 1 }),
       TaskPhase.stepWait wf (i + 1)) := by
  rw [List.get?_eq_getElem?] at hstep
  simp [task_segment, hex, hstep, hout, hlt]

/-- A step segment whose interpreter call fails on a step with
`on_failure == "stop"`: record the failure, mark the execution `Failed` with
the step's error as the execution's message, and halt. -/
theorem task_segment_step_fail_stop (env : StepEnv) (now : Nat) (eid : String)
    (st : EngineState) (ex : WorkflowExecution) (wf : WorkflowDefinition)
    (i : Nat) (step : WorkflowStep) (err : String)
    (hex : lookupKey st.executions eid = some ex)
    (hstep : wf.steps.get? i = some step)
    (herr : execute_step env step ex.context = .error err)
    (hstop : step.on_failure = "stop") :
    task_segment env now eid (st, TaskPhase.stepWait wf i) =
      (updateExec (updateExec st eid (fun e =>
          { e with results := e.results ++ [failureRecord step err now] })) eid
        (fun e =>
          { e with status := WorkflowStatus.failed,
                   error_message := some ("Step '" ++ step.name ++ "' failed: "
                                           ++ err),
                   completed_at := some now }),
       TaskPhase.finished) := by
  rw [List.get?_eq_getElem?] at hstep
  simp [task_segment, hex, hstep, herr, hstop]

/-- A step segment whose interpreter call fails on a step whose `on_failure`
is not `"stop"` (`continue`, or `retry` which has no implemented behavior),
with further steps remaining: record the failure and move on. -/
theorem task_segment_step_fail_next (env : StepEnv) (now : Nat) (eid : String)
    (st : EngineState) (ex : WorkflowExecution) (wf : WorkflowDefinition)
    (i : Nat) (step : WorkflowStep) (err : String)
    (hex : lookupKey st.executions eid = some ex)
    (hstep : wf.steps.get? i = some step)
    (herr : execute_step env step ex.context = .error err)
    (hnostop : step.on_failure ≠ "stop")
    (hlt : i + 1 < wf.steps.length) :
    task_segment env now eid (st, TaskPhase.stepWait wf i) =
      (updateExec (updateExec st eid (fun e =>
          { e with results := e.results ++ [failureRecord step err now] })) eid
        (fun e => { e with current_step := i + 1 }),
       TaskPhase.stepWait wf (i + 1)) := by
  rw [List.get?_eq_getElem?] at hstep
  simp [task_segment, hex, hstep, herr, hnostop, hlt]

/-! ## Claims about the Workflow Executor -/

/-- C5: a 3-step workflow whose second step (0-indexed step 1) fails with
`on_failure = "stop"` terminates with status `Failed`, `current_step = 1`,
exactly the two result records (the second marked failed), the failing step's
error as the execution's `error_message`, a completion timestamp — and the
third step is never dispatched (no reachable phase awaits step 2). -/
theorem three_step_stop_on_failure (env : StepEnv) (now : Nat) (eid : String)
    (st : EngineState) (ex0 : WorkflowExecution) (wf : WorkflowDefinition)
    (s0 s1 s2 : WorkflowStep) (o0 : StepOutput) (e1 : String)
    (hex : lookupKey st.executions eid = some ex0)
    (hwf : lookupKey st.workflows ex0.workflow_id = some wf)
    (hsteps : wf.steps = [s0, s1, s2])
    (hres0 : ex0.results = [])
    (h0 : execute_step env s0 ex0.context = .ok o0)
    (h1 : execute_step env s1 ex0.context = .error e1)
    (hstop : s1.on_failure = "stop") :
    ∃ exf,
      lookupKey (run_task env now eid 3 (st, TaskPhase.init)).1.executions eid
        = some exf ∧
      exf.status = WorkflowStatus.failed ∧
      exf.current_step = 1 ∧
      exf.results = [successRecord s0 o0 now, failureRecord s1 e1 now] ∧
      exf.error_message = some ("Step '" ++ s1.name ++ "' failed: " ++ e1) ∧
      exf.completed_at = some now ∧
      (run_task env now eid 3 (st, TaskPhase.init)).2 = TaskPhase.finished ∧
      ∀ n, (run_task env now eid n (st, TaskPhase.init)).2 ≠
        TaskPhase.stepWait wf 2 := by
  have hne : wf.steps ≠ [] := by simp [hsteps]
  have hseg1 := task_segment_init env now eid st ex0 wf hex hwf hne
  have hl1 := lookupKey_updateExec_self st eid
    (fun e => { e with status := WorkflowStatus.running, current_step := 0 })
    ex0 hex
  have hseg2 := task_segment_step_ok_next env now eid _ _ wf 0 s0 o0 hl1
    (by simp [hsteps]) h0 (by simp [hsteps])
  have hl2a := lookupKey_updateExec_self _ eid
    (fun e => { e with results := e.results ++ [successRecord s0 o0 now] })
    _ hl1
  have hl2 := lookupKey_updateExec_self _ eid
    (fun e => { e with current_step := 0 + 1 }) _ hl2a
  have hseg3 := task_segment_step_fail_stop env now eid _ _ wf 1 s1 e1 hl2
    (by simp [hsteps]) h1 hstop
  have hrun3 : run_task env now eid 3 (st, TaskPhase.init) =
      (updateExec (updateExec (updateExec (updateExec (updateExec st eid
         (fun e => { e with status := WorkflowStatus.running,
                            current_step := 0 })) eid
         (fun e => { e with results := e.results
                              ++ [successRecord s0 o0 now] })) eid
         (fun e => { e with current_step := 0 + 1 })) eid
         (fun e => { e with results := e.results
                              ++ [failureRecord s1 e1 now] })) eid
         (fun e => { e with status := WorkflowStatus.failed,
                            error_message := some ("Step '" ++ s1.name
                              ++ "' failed: " ++ e1),
                            completed_at := some now }),
       TaskPhase.finished) := by
    show task_segment env now eid (task_segment env now eid
      (task_segment env now eid (st, TaskPhase.init))) = _
    rw [hseg1, hseg2, hseg3]
  have hlf1 := lookupKey_updateExec_self _ eid
    (fun e => { e with results := e.results ++ [failureRecord s1 e1 now] })
    _ hl2
  have hlf := lookupKey_updateExec_self _ eid
    (fun e => { e with status := WorkflowStatus.failed,
                       error_message := some ("Step '" ++ s1.name
                         ++ "' failed: " ++ e1),
                       completed_at := some now }) _ hlf1
  have hlook : lookupKey
      (run_task env now eid 3 (st, TaskPhase.init)).1.executions eid =
      some ((fun e =>
        { e with status := WorkflowStatus.failed,
                 error_message := some ("Step '" ++ s1.name
                   ++ "' failed: " ++ e1),
                 completed_at := some now })
        ((fun e => { e with results := e.results
                              ++ [failureRecord s1 e1 now] })
          ((fun e => { e with current_step := 0 + 1 })
            ((fun e => { e with results := e.results
                                  ++ [successRecord s0 o0 now] })
              ((fun e => { e with status := WorkflowStatus.running,
                                  current_step := 0 }) ex0))))) := by
    rw [hrun3]
    exact hlf
  have hnod : ∀ n, (run_task env now eid n (st, TaskPhase.init)).2 ≠
      TaskPhase.stepWait wf 2 := by
    intro n
    rcases n with _ | n
    · simp [run_task]
    rcases n with _ | n
    · show (task_segment env now eid (st, TaskPhase.init)).2 ≠ _
      rw [hseg1]
      simp
    rcases n with _ | m
    · show (task_segment env now eid
        (task_segment env now eid (st, TaskPhase.init))).2 ≠ _
      rw [hseg1, hseg2]
      simp
    · show (run_task env now eid (m + 3) (st, TaskPhase.init)).2 ≠ _
      rw [run_task_add env now eid m 3 (st, TaskPhase.init), hrun3,
        run_task_finished]
      simp
  exact ⟨_, hlook, rfl, rfl, by simp [hres0], rfl, rfl, by rw [hrun3], hnod⟩

/-- Command collaborator failing exactly on the command "boom". -/
def envBoom : StepEnv :=
  { process_command := fun c _ =>
      if c = "boom" then .error "boom"
      else .ok { success := true, message := "ok" },
    app_start := fun _ => { success := true },
    app_stop := fun _ => { success := true },
    app_restart := fun _ => { success := true } }

/-- A command step with the given id and command text. -/
def cmdStep (i cmd : String) : WorkflowStep :=
  { id := i, type := .command, name := "step " ++ i, description := "",
    parameters := { command := some cmd } }

/-- The 3-step workflow of the concrete `on_failure = stop` scenario. -/
def wfThreeSteps : WorkflowDefinition :=
  { id := "w3", name := "w3", display_name := "Three Steps", description := "",
    category := "custom",
    steps := [cmdStep "s0" "ok0", cmdStep "s1" "boom", cmdStep "s2" "ok2"],
    variables_map := [], created_by := "u1", created_at := 0, tags := [] }

/-- A pending execution of workflow `wid` as `execute_workflow` creates it. -/
def exPend (eid wid : String) : WorkflowExecution :=
  { id := eid, workflow_id := wid, status := .pending, current_step := 0,
    started_at := 0, executed_by := "u1", results := [] }

/-- Engine state of the concrete C5 scenario. -/
def stC5 : EngineState :=
  { workflows := [("w3", wfThreeSteps)],
    executions := [("e5", exPend "e5" "w3")] }

/-- Witness for C5 at the concrete 3-step scenario. -/
theorem three_step_stop_on_failure_witness :
    ∃ exf,
      lookupKey (run_task envBoom 7 "e5" 3 (stC5, TaskPhase.init)).1.executions
        "e5" = some exf ∧
      exf.status = WorkflowStatus.failed ∧
      exf.current_step = 1 ∧
      exf.results = [successRecord (cmdStep "s0" "ok0")
            (StepOutput.command "ok0" true "ok" none) 7,
          failureRecord (cmdStep "s1" "boom") "boom" 7] ∧
      exf.error_message = some ("Step '" ++ (cmdStep "s1" "boom").name
          ++ "' failed: " ++ "boom") ∧
      exf.completed_at = some 7 ∧
      (run_task envBoom 7 "e5" 3 (stC5, TaskPhase.init)).2 =
        TaskPhase.finished ∧
      ∀ n, (run_task envBoom 7 "e5" n (stC5, TaskPhase.init)).2 ≠
        TaskPhase.stepWait wfThreeSteps 2 :=
  three_step_stop_on_failure envBoom 7 "e5" stC5 (exPend "e5" "w3")
    wfThreeSteps (cmdStep "s0" "ok0") (cmdStep "s1" "boom") (cmdStep "s2" "ok2")
    (StepOutput.command "ok0" true "ok" none) "boom"
    rfl rfl rfl rfl rfl rfl rfl

/-- C10: a step of kind `condition` or `loop` passes the only
definition-creation validation (the `StepType` enum construction) and is
stored as given by `create_workflow`, but dispatching it always yields the
"Unsupported step type" failure, which is recorded as a failed result and
handled by the step's `on_failure` policy exactly like any other failure —
the background unit carries on (no crash). -/
theorem unsupported_step_type_handled (env : StepEnv) (now : Nat)
    (eid : String) (st : EngineState) (ex : WorkflowExecution)
    (wf : WorkflowDefinition) (i : Nat) (step : WorkflowStep)
    (hty : step.type = StepType.condition ∨ step.type = StepType.loop)
    (hstep : wf.steps.get? i = some step)
    (hex : lookupKey st.executions eid = some ex) :
    parseStepType step.type.value = .ok step.type ∧
    (∀ (st' : EngineState) (nm uid wid : String) (fresh : Nat → String)
       (cnow : Nat) (d : StepData), d.type = step.type.value →
       ((create_workflow st' { name := nm, steps := [d] } uid wid fresh
           cnow).toOption.map (fun r =>
         (lookupKey r.2.workflows wid).map
           (fun w => w.steps.map (fun s => s.type)))) =
         some (some [step.type])) ∧
    execute_step env step ex.context =
      .error ("Unsupported step type: " ++ step.type.pyStr) ∧
    (step.on_failure = "stop" →
      task_segment env now eid (st, TaskPhase.stepWait wf i) =
        (updateExec (updateExec st eid (fun e =>
            { e with results := e.results ++ [failureRecord step
                ("Unsupported step type: " ++ step.type.pyStr) now] })) eid
          (fun e =>
            { e with status := WorkflowStatus.failed,
                     error_message := some ("Step '" ++ step.name
                       ++ "' failed: "
                       ++ ("Unsupported step type: " ++ step.type.pyStr)),
                     completed_at := some now }),
         TaskPhase.finished)) ∧
    (step.on_failure ≠ "stop" → i + 1 < wf.steps.length →
      task_segment env now eid (st, TaskPhase.stepWait wf i) =
        (updateExec (updateExec st eid (fun e =>
            { e with results := e.results ++ [failureRecord step
                ("Unsupported step type: " ++ step.type.pyStr) now] })) eid
          (fun e => { e with current_step := i + 1 }),
         TaskPhase.stepWait wf (i + 1))) := by
  have herr : execute_step env step ex.context =
      .error ("Unsupported step type: " ++ step.type.pyStr) := by
    rcases hty with h | h <;> simp [execute_step, h]
  refine ⟨?_, ?_, herr, fun hstop => ?_, fun hnostop hlt => ?_⟩
  · rcases hty with h | h <;> rw [h] <;> rfl
  · intro st' nm uid wid fresh cnow d hd
    have hparse : parseStepType d.type = .ok step.type := by
      rcases hty with h | h <;> rw [hd, h] <;> rfl
    simp [create_workflow, buildSteps, buildStep, hparse, Except.toOption,
      lookupKey_insertKey_self]
  · exact task_segment_step_fail_stop env now eid st ex wf i step _ hex hstep
      herr hstop
  · exact task_segment_step_fail_next env now eid st ex wf i step _ hex hstep
      herr hnostop hlt

/-- A `condition` step whose failure policy is `continue`. -/
def condStep : WorkflowStep :=
  { id := "c0", type := .condition, name := "branch", description := "",
    parameters := {}, on_failure := "continue" }

/-- A 2-step workflow whose first step has the unimplemented `condition`
kind. -/
def wfCond : WorkflowDefinition :=
  { id := "wc", name := "wc", display_name := "Cond", description := "",
    category := "custom", steps := [condStep, cmdStep "s1" "ok"],
    variables_map := [], created_by := "u1", created_at := 0, tags := [] }

/-- Engine state of the concrete C10 scenario. -/
def stCond : EngineState :=
  { workflows := [("wc", wfCond)],
    executions := [("e6", exPend "e6" "wc")] }

/-- Witness for C10 at a concrete `condition` step with `continue` policy. -/
theorem unsupported_step_type_handled_witness :
    parseStepType condStep.type.value = .ok condStep.type ∧
    (∀ (st' : EngineState) (nm uid wid : String) (fresh : Nat → String)
       (cnow : Nat) (d : StepData), d.type = condStep.type.value →
       ((create_workflow st' { name := nm, steps := [d] } uid wid fresh
           cnow).toOption.map (fun r =>
         (lookupKey r.2.workflows wid).map
           (fun w => w.steps.map (fun s => s.type)))) =
         some (some [condStep.type])) ∧
    execute_step envBoom condStep (exPend "e6" "wc").context =
      .error ("Unsupported step type: " ++ condStep.type.pyStr) ∧
    (condStep.on_failure = "stop" →
      task_segment envBoom 4 "e6" (stCond, TaskPhase.stepWait wfCond 0) =
        (updateExec (updateExec stCond "e6" (fun e =>
            { e with results := e.results ++ [failureRecord condStep
                ("Unsupported step type: " ++ condStep.type.pyStr) 4] })) "e6"
          (fun e =>
            { e with status := WorkflowStatus.failed,
                     error_message := some ("Step '" ++ condStep.name
                       ++ "' failed: "
                       ++ ("Unsupported step type: " ++ condStep.type.pyStr)),
                     completed_at := some 4 }),
         TaskPhase.finished)) ∧
    (condStep.on_failure ≠ "stop" → 0 + 1 < wfCond.steps.length →
      task_segment envBoom 4 "e6" (stCond, TaskPhase.stepWait wfCond 0) =
        (updateExec (updateExec stCond "e6" (fun e =>
            { e with results := e.results ++ [failureRecord condStep
                ("Unsupported step type: " ++ condStep.type.pyStr) 4] })) "e6"
          (fun e => { e with current_step := 0 + 1 }),
         TaskPhase.stepWait wfCond (0 + 1))) :=
  unsupported_step_type_handled envBoom 4 "e6" stCond (exPend "e6" "wc")
    wfCond 0 condStep (Or.inl rfl) rfl rfl

/-! ## Concrete cancellation, deletion and timeout scenarios -/

/-- The engine state a successful `execute_workflow` returns (the fallback is
never taken in the scenarios below; the calls are proved to return `.ok`). -/
def schedState (r : Except String (String × EngineState))
    (fallback : EngineState) : EngineState :=
  match r with
  | .ok (_, st) => st
  | .error _ => fallback

/-- A one-second delay step. -/
def delayStep (i : String) : WorkflowStep :=
  { id := i, type := .delay, name := "delay " ++ i, description := "",
    parameters := { duration := some 1 } }

/-- A 2-step all-delay workflow for the cancellation scenario. -/
def wfTwoDelays : WorkflowDefinition :=
  { id := "wd", name := "wd", display_name := "Two Delays", description := "",
    category := "custom", steps := [delayStep "d0", delayStep "d1"],
    variables_map := [], created_by := "u1", created_at := 0, tags := [] }

/-- Engine state before the cancellation scenario. -/
def stCancel0 : EngineState :=
  { workflows := [("wd", wfTwoDelays)], executions := [] }

/-- Engine state after `execute_workflow` scheduled execution "e1". -/
def stCancel1 : EngineState :=
  schedState (execute_workflow stCancel0 "wd" "u1" [] "e1" 0) stCancel0

/-- Unit state after the first segment: `Running`, step 0 in flight. -/
def cancelSeg1 : EngineState × TaskPhase :=
  task_segment envBoom 1 "e1" (stCancel1, TaskPhase.init)

/-- `cancel_execution` arriving while step 0 is awaited. -/
def cancelCall : Bool × EngineState := cancel_execution cancelSeg1.1 "e1" 2

/-- The background unit resumed after the cancellation, run to completion. -/
def cancelFinal : EngineState × TaskPhase :=
  run_task envBoom 3 "e1" 2 (cancelCall.2, cancelSeg1.2)

/-- C1 evaluated at the failing input: `cancel_execution` returns `true` and
sets the status to `Cancelled` while step 0 is in flight, yet the step loop —
which never consults the status — dispatches step 1 anyway and finally
overwrites the status with `Completed`: the terminal `Cancelled` status is
neither permanent nor does it stop further step dispatch. -/
theorem cancelled_execution_still_runs :
    execute_workflow stCancel0 "wd" "u1" [] "e1" 0 = .ok ("e1", stCancel1) ∧
    cancelSeg1.2 = TaskPhase.stepWait wfTwoDelays 0 ∧
    cancelCall.1 = true ∧
    (lookupKey cancelCall.2.executions "e1").map (fun e => e.status) =
      some WorkflowStatus.cancelled ∧
    (run_task envBoom 3 "e1" 1 (cancelCall.2, cancelSeg1.2)).2 =
      TaskPhase.stepWait wfTwoDelays 1 ∧
    (lookupKey cancelFinal.1.executions "e1").map
        (fun e => (e.status, e.results.length, e.completed_at)) =
      some (WorkflowStatus.completed, 2, some 3) ∧
    WorkflowStatus.completed ≠ WorkflowStatus.cancelled :=
  ⟨rfl, rfl, rfl, rfl, rfl, rfl, by decide⟩

/-- A 1-step command workflow owned by "u1" for the deletion scenario. -/
def wfOneCmd : WorkflowDefinition :=
  { id := "wc1", name := "wc1", display_name := "One Command",
    description := "", category := "custom", steps := [cmdStep "s0" "ok"],
    variables_map := [], created_by := "u1", created_at := 0, tags := [] }

/-- Engine state before the deletion scenario. -/
def stDel0 : EngineState :=
  { workflows := [("wc1", wfOneCmd)], executions := [] }

/-- Engine state after `execute_workflow` scheduled execution "e2". -/
def stDel1 : EngineState :=
  schedState (execute_workflow stDel0 "wc1" "u1" [] "e2" 0) stDel0

/-- `delete_workflow` arriving before the background unit's first segment. -/
def delCall : Bool × EngineState := delete_workflow stDel1 "wc1" "u1"

/-- The background unit's first segment after the deletion. -/
def delSeg : EngineState × TaskPhase :=
  task_segment envBoom 1 "e2" (delCall.2, TaskPhase.init)

/-- C2 evaluated at the failing input: the background unit re-resolves the
workflow from the mutable catalog instead of using a pinned snapshot, so a
deletion racing ahead of its first segment makes the run fail with the
`KeyError` text as its message and no step ever runs, and
`get_execution_status` raises the same `KeyError` instead of returning the
status view. -/
theorem deleted_definition_breaks_execution :
    execute_workflow stDel0 "wc1" "u1" [] "e2" 0 = .ok ("e2", stDel1) ∧
    delCall.1 = true ∧
    lookupKey delCall.2.workflows "wc1" = none ∧
    (lookupKey delSeg.1.executions "e2").map
        (fun e => (e.status, e.error_message, e.results.length)) =
      some (WorkflowStatus.failed, some ("'" ++ "wc1" ++ "'"), 0) ∧
    delSeg.2 = TaskPhase.finished ∧
    get_execution_status delSeg.1 "e2" = .error ("'" ++ "wc1" ++ "'") :=
  ⟨rfl, rfl, rfl, rfl, rfl, rfl⟩

/-- The delay step of the timeout scenario: suspends for 100 seconds while
its configured timeout is 1 second. -/
def longDelayStep : WorkflowStep :=
  { id := "t0", type := .delay, name := "long delay", description := "",
    parameters := { duration := some 100 }, timeout := 1 }

/-- A 1-step workflow around `longDelayStep`. -/
def wfLongDelay : WorkflowDefinition :=
  { id := "wl", name := "wl", display_name := "Long Delay", description := "",
    category := "custom", steps := [longDelayStep],
    variables_map := [], created_by := "u1", created_at := 0, tags := [] }

/-- Engine state of the timeout scenario with a pending execution "e4". -/
def stLong : EngineState :=
  { workflows := [("wl", wfLongDelay)],
    executions := [("e4", exPend "e4" "wl")] }

/-- The timeout scenario run to completion. -/
def longFinal : EngineState × TaskPhase :=
  run_task envBoom 9 "e4" 2 (stLong, TaskPhase.init)

/-- C4 evaluated at the failing input: a step whose execution (a 100-second
suspension) exceeds its configured 1-second timeout is not failed — the loop
records it as a success and completes the execution — and step dispatch is
invariant under the step's `timeout` field: the configured value is never
consulted. -/
theorem step_timeout_not_enforced :
    longDelayStep.timeout = 1 ∧
    longDelayStep.parameters.duration = some 100 ∧
    execute_step envBoom longDelayStep [] =
      .ok (StepOutput.delay 100 ("Waited for " ++ toString 100
        ++ " seconds")) ∧
    (lookupKey longFinal.1.executions "e4").map
        (fun e => (e.status, e.results.map (fun r => r.success))) =
      some (WorkflowStatus.completed, [true]) ∧
    (∀ t : Nat, execute_step envBoom { longDelayStep with timeout := t } [] =
      execute_step envBoom longDelayStep []) :=
  ⟨rfl, rfl, rfl, rfl, fun _ => rfl⟩

end Helios
